import Mathlib

/-!
Shallow embedding of the conntrack netlink event consumer
(package internal, source file part_000): the socketError classifier,
initNetlinkSocket, throttle, one iteration of the receive loop, and the
isPeerNS peer-namespace query.

External collaborators (the raw socket, the circuit breaker, checkMessage,
the BPF sampler, the kernel) are represented by oracle inputs: the embedded
control flow depends only on the values they return, exactly as the source
does. Go float64 arithmetic is modelled exactly over the rationals, and the
Go conversion int64(x) as truncation toward zero.
-/

namespace Conntrack

/-- Header type value of a netlink error message (netlink.Error = 0x2). -/
def nlError : Nat := 2

/-- Header type value of a netlink multi-part terminator (netlink.Done = 0x3). -/
def nlDone : Nat := 3

/-- Attribute type NETNSA_NSID from the rtnetlink namespace API. -/
def netnsaNSID : Nat := 1

/-- Overshoot factor applied to the recomputed sampling rate
(source constant overshootFactor = 0.95). -/
def overshootFactor : ℚ := 0.95

/-- Boolean test that the first character list is an initial segment of the
second. -/
def leadsWith : List Char → List Char → Bool
  | [], _ => true
  | _ :: _, [] => false
  | a :: as, b :: bs => a == b && leadsWith as bs

/-- Boolean substring containment on character lists, embedding the Go
strings.Contains test used by socketError. -/
def containsSub (needle : List Char) : List Char → Bool
  | [] => leadsWith needle []
  | c :: cs => leadsWith needle (c :: cs) || containsSub needle cs

/-- Substring identifying a closed-descriptor error (part_000 line 515). -/
def closedFileStr : List Char := "closed file".toList

/-- Substring identifying an ENOBUFS condition (part_000 line 519). -/
def noBufStr : List Char := "no buffer space".toList

/-- Classification produced by socketError: terminal EOF, ENOBUF, or any
other error. -/
inductive SockErrClass where
  | eof
  | enobuf
  | otherErr
deriving DecidableEq

/-- Embeds socketError (part_000 lines 514-524): classify an error message
by substring, checking "closed file" first, then "no buffer space". -/
def socketError (e : List Char) : SockErrClass :=
  if containsSub closedFileStr e then SockErrClass.eof
  else if containsSub noBufStr e then SockErrClass.enobuf
  else SockErrClass.otherErr

/-- Mirror of the Consumer fields the embedded operations read and write:
telemetry counters, sampling state, the streaming flag, and the connection
slot. conn = some g is a live connection of generation g (none after
conn.Close in throttle); socketGen counts socket initializations, so that
reinitialization is observable in the state. -/
structure ConsumerState where
  targetRateLimit : ℤ
  samplingRate : ℚ
  samplingPct : ℤ
  enobufs : ℤ
  throttles : ℤ
  readErrors : ℤ
  msgErrors : ℤ
  streaming : Bool
  conn : Option ℕ
  socketGen : ℕ
deriving DecidableEq

/-- Go conversion int64(x) applied to a float64 value: truncation toward
zero. -/
def i64trunc (q : ℚ) : ℤ := if 0 ≤ q then ⌊q⌋ else ⌈q⌉

/-- Embeds initNetlinkSocket (part_000 lines 338-384). sockOk is the oracle
for socket creation inside WithRootNS, bpfOk for socket.SetBPF. The
receive-buffer and namespace socket options are best-effort in the source
and carry no state here. Returns the updated state and true on a nil
error. -/
def initNetlinkSocket (s : ConsumerState) (samplingRate : ℚ)
    (sockOk bpfOk : Bool) : ConsumerState × Bool :=
  if !sockOk then (s, false)
  else
    let s1 : ConsumerState :=
      { s with conn := some (s.socketGen + 1), socketGen := s.socketGen + 1,
               samplingRate := samplingRate,
               samplingPct := i64trunc (samplingRate * 100) }
    if 1 ≤ samplingRate then (s1, true)
    else if bpfOk then (s1, true)
    else ({ s1 with samplingPct := 0 }, false)

/-- Embeds throttle (part_000 lines 460-496). pre315 is the package flag
pre315Kernel; breakerOpen is breaker.IsOpen() observed after
breaker.Tick(numMessages); breakerRate is breaker.Rate(); sockOk and bpfOk
are the reinitialization oracles and joinOk the result of conn.JoinGroup.
Returns the new state and true exactly when throttle returns nil. -/
def throttle (pre315 : Bool) (s : ConsumerState) (numMessages : ℕ)
    (breakerOpen : Bool) (breakerRate : ℚ) (sockOk bpfOk joinOk : Bool) :
    ConsumerState × Bool :=
  if !s.streaming then (s, true)
  else if !breakerOpen then (s, true)
  else
    let s1 := { s with throttles := s.throttles + 1 }
    if pre315 then (s1, true)
    else
      let s2 := { s1 with conn := none }
      let newRate := ((s.targetRateLimit : ℚ) / breakerRate) * s.samplingRate
          * overshootFactor
      let res := initNetlinkSocket s2 newRate sockOk bpfOk
      if res.2 then (res.1, joinOk) else (res.1, false)

/-- Netlink message as seen by the receive loop. Modelled from the spec:
checkMessage, the per-message protocol-level sanity check, is a collaborator
whose code is not in the given source, so its verdict on each message is
carried as the oracle field checkOk (true exactly when checkMessage returns
nil); htype is the message header type from the source framing. -/
structure NlMsg where
  htype : Nat
  checkOk : Bool
deriving DecidableEq

/-- Event emitted on the output channel (part_000 lines 106-112 and
449-456): the delivered messages and the originating namespace id. The
buffer and pool fields carry no control flow and are omitted. -/
structure Event where
  msgs : List NlMsg
  netnsId : ℤ
deriving DecidableEq

/-- Oracle inputs consumed by one iteration of the receive loop: the
ReceiveInto result (messages, namespace id, optional error message) and the
collaborator outcomes used by throttle. -/
structure IterInput where
  msgs : List NlMsg
  netnsId : ℤ
  rerr : Option (List Char)
  breakerOpen : Bool
  breakerRate : ℚ
  sockOk : Bool
  bpfOk : Bool
  joinOk : Bool
deriving DecidableEq

/-- Outcome of one iteration of the receive loop: either the loop keeps
running (cont) or it returns (ret), after which the deferred close shuts
the output channel; emitted is the Event sent on the output channel during
this iteration, if any. -/
inductive StepOut where
  | cont (s : ConsumerState) (emitted : Option Event)
  | ret (s : ConsumerState) (emitted : Option Event)
deriving DecidableEq

/-- Boolean guard multiPartDone (part_000 line 435): the batch is nonempty
and its last message has the Done header type. -/
def lastIsDone (msgs : List NlMsg) : Bool :=
  match msgs.getLast? with
  | some m => m.htype == nlDone
  | none => false

/-- Tail of a receive iteration after error classification: throttling,
per-message validation, Done-sentinel stripping, and Event emission
(part_000 lines 421-445). -/
def receiveTail (pre315 : Bool) (s : ConsumerState) (inp : IterInput) :
    StepOut :=
  let t := throttle pre315 s inp.msgs.length inp.breakerOpen inp.breakerRate
      inp.sockOk inp.bpfOk inp.joinOk
  if !t.2 then StepOut.ret t.1 none
  else
    let s1 := t.1
    if inp.msgs.any (fun m => !m.checkOk) then
      StepOut.cont { s1 with msgErrors := s1.msgErrors + 1 } none
    else
      let mpd := lastIsDone inp.msgs
      let out := if mpd then inp.msgs.dropLast else inp.msgs
      let ev : Event := { msgs := out, netnsId := inp.netnsId }
      if mpd && !s1.streaming then StepOut.ret s1 (some ev)
      else StepOut.cont s1 (some ev)

/-- Embeds one iteration of the receive loop (part_000 lines 404-446):
classify any ReceiveInto error, then throttle, validate, strip the Done
sentinel, and emit. -/
def receiveStep (pre315 : Bool) (s : ConsumerState) (inp : IterInput) :
    StepOut :=
  match inp.rerr with
  | none => receiveTail pre315 s inp
  | some e =>
    match socketError e with
    | SockErrClass.eof => StepOut.ret s none
    | SockErrClass.enobuf =>
        receiveTail pre315 { s with enobufs := s.enobufs + 1 } inp
    | SockErrClass.otherErr =>
        receiveTail pre315 { s with readErrors := s.readErrors + 1 } inp

/-- Signed 32-bit reinterpretation int32(v) of a uint32 value. -/
def int32OfUint32 (v : Nat) : ℤ :=
  if v % 2 ^ 32 < 2 ^ 31 then ((v % 2 ^ 32 : Nat) : ℤ)
  else ((v % 2 ^ 32 : Nat) : ℤ) - 2 ^ 32

/-- Reply message of the RTM_GETNSID query: header type, attribute list as
(type, uint32 value) pairs in decoder order, and the oracle for whether
netlink.NewAttributeDecoder succeeds on its payload. -/
structure ReplyMsg where
  htype : Nat
  attrs : List (Nat × Nat)
  decodeOk : Bool
deriving DecidableEq

/-- Oracle inputs of one isPeerNS query: attribute-encoder success, send
success, and the Receive outcome (none = receive error). -/
structure PeerInput where
  encodeOk : Bool
  sendOk : Bool
  recv : Option (List ReplyMsg)
deriving DecidableEq

/-- Attribute scan of isPeerNS (part_000 lines 208-215): walk the decoded
attributes in order and return at the first NETNSA_NSID attribute with
result int32(value) >= 0; false when none is present. -/
def scanNSID : List (Nat × Nat) → Bool
  | [] => false
  | (t, v) :: rest =>
    if t = netnsaNSID then decide (0 ≤ int32OfUint32 v) else scanNSID rest

/-- Embeds isPeerNS (part_000 lines 166-218) acting on the consumer's
netlink sequence number. The first component is the returned Bool; none
models the unguarded msgs[0] access faulting on an empty reply slice. The
second component is the sequence number afterwards; the uint32 increment
wraps modulo 2 ^ 32. -/
def isPeerNS (seq : ℕ) (inp : PeerInput) : Option Bool × ℕ :=
  if !inp.encodeOk then (some false, seq)
  else if !inp.sendOk then (some false, seq)
  else
    match inp.recv with
    | none => (some false, seq)
    | some [] => (none, seq)
    | some (m :: _) =>
      if m.htype = nlError then (some false, seq)
      else
        let seq1 := (seq + 1) % 2 ^ 32
        if !m.decodeOk then (some false, seq1)
        else (some (scanNSID m.attrs), seq1)

/-- Sample consumer state used by the concrete witnesses: target rate 100
messages per second, sampling rate 1.0, streaming mode. -/
def sampleState : ConsumerState :=
  { targetRateLimit := 100, samplingRate := 1, samplingPct := 100,
    enobufs := 0, throttles := 0, readErrors := 0, msgErrors := 0,
    streaming := true, conn := some 1, socketGen := 1 }

lemma throttle_closed (pre315 : Bool) (s : ConsumerState) (n : ℕ) (r : ℚ)
    (a b c : Bool) : throttle pre315 s n false r a b c = (s, true) := by
  cases hs : s.streaming <;> simp [throttle, hs]

lemma throttle_pre315_ok (s : ConsumerState) (n : ℕ) (bo : Bool) (r : ℚ)
    (a b c : Bool) :
    (throttle true s n bo r a b c).2 = true
    ∧ (throttle true s n bo r a b c).1.streaming = s.streaming := by
  cases hs : s.streaming <;> cases hbo : bo <;> simp [throttle, hs, hbo]

/-- Event constructed by the emitting branch of the receive loop
(part_000 lines 434-440): the batch with a trailing Done sentinel
stripped, paired with the namespace id. -/
def strippedEvent (inp : IterInput) : Event :=
  { msgs := if lastIsDone inp.msgs then inp.msgs.dropLast else inp.msgs,
    netnsId := inp.netnsId }

lemma receiveTail_eq (pre315 : Bool) (s s1 : ConsumerState) (inp : IterInput)
    (hth : throttle pre315 s inp.msgs.length inp.breakerOpen inp.breakerRate
        inp.sockOk inp.bpfOk inp.joinOk = (s1, true)) :
    receiveTail pre315 s inp
      = (if inp.msgs.any (fun m => !m.checkOk)
         then StepOut.cont { s1 with msgErrors := s1.msgErrors + 1 } none
         else if lastIsDone inp.msgs && !s1.streaming
         then StepOut.ret s1 (some (strippedEvent inp))
         else StepOut.cont s1 (some (strippedEvent inp))) := by
  unfold receiveTail
  rw [hth]
  rfl

lemma receiveStep_none (pre315 : Bool) (s : ConsumerState) (inp : IterInput)
    (hre : inp.rerr = none) :
    receiveStep pre315 s inp = receiveTail pre315 s inp := by
  simp only [receiveStep, hre]

lemma receiveStep_eof (pre315 : Bool) (s : ConsumerState) (inp : IterInput)
    (e : List Char) (hre : inp.rerr = some e)
    (hcl : socketError e = SockErrClass.eof) :
    receiveStep pre315 s inp = StepOut.ret s none := by
  simp only [receiveStep, hre, hcl]

lemma receiveStep_enobuf (pre315 : Bool) (s : ConsumerState) (inp : IterInput)
    (e : List Char) (hre : inp.rerr = some e)
    (hcl : socketError e = SockErrClass.enobuf) :
    receiveStep pre315 s inp
      = receiveTail pre315 { s with enobufs := s.enobufs + 1 } inp := by
  simp only [receiveStep, hre, hcl]

lemma receiveStep_other (pre315 : Bool) (s : ConsumerState) (inp : IterInput)
    (e : List Char) (hre : inp.rerr = some e)
    (hcl : socketError e = SockErrClass.otherErr) :
    receiveStep pre315 s inp
      = receiveTail pre315 { s with readErrors := s.readErrors + 1 } inp := by
  simp only [receiveStep, hre, hcl]

lemma throttle_open_fields (s : ConsumerState) (n : ℕ) (r : ℚ)
    (bpfOk joinOk : Bool) (hstream : s.streaming = true) :
    (throttle false s n true r true bpfOk joinOk).1.samplingRate
      = ((s.targetRateLimit : ℚ) / r) * s.samplingRate * overshootFactor
    ∧ (throttle false s n true r true bpfOk joinOk).1.socketGen
      = s.socketGen + 1
    ∧ (throttle false s n true r true bpfOk joinOk).1.conn
      = some (s.socketGen + 1) := by
  refine ⟨?_, ?_, ?_⟩ <;>
    (simp only [throttle, initNetlinkSocket, hstream, Bool.not_true,
        Bool.false_eq_true, if_false]
     split_ifs <;> rfl)

/-- C1: on every breaker trip while streaming on a non-pre-3.15 kernel,
with target rate t = targetRateLimit, observed breaker rate r and prior
sampling rate s, throttle reinitializes the socket (fresh generation, live
connection slot) with new sampling rate (t / r) * s * 0.95; when
r = k * t with k > 1 the new rate equals s * 0.95 / k, exactly over the
rationals. -/
theorem throttle_sampling_scaling (s : ConsumerState) (n : ℕ) (r k : ℚ)
    (bpfOk joinOk : Bool)
    (hstream : s.streaming = true)
    (ht : 0 < (s.targetRateLimit : ℚ))
    (hr : r = k * (s.targetRateLimit : ℚ))
    (hk : 1 < k) :
    (throttle false s n true r true bpfOk joinOk).1.samplingRate
      = ((s.targetRateLimit : ℚ) / r) * s.samplingRate * overshootFactor
    ∧ (throttle false s n true r true bpfOk joinOk).1.samplingRate
      = s.samplingRate * overshootFactor / k
    ∧ (throttle false s n true r true bpfOk joinOk).1.socketGen
      = s.socketGen + 1
    ∧ (throttle false s n true r true bpfOk joinOk).1.conn
      = some (s.socketGen + 1) := by
  obtain ⟨h1, h2, h3⟩ := throttle_open_fields s n r bpfOk joinOk hstream
  refine ⟨h1, ?_, h2, h3⟩
  rw [h1, hr]
  have hk0 : k ≠ 0 := ne_of_gt (lt_trans one_pos hk)
  have ht0 : (s.targetRateLimit : ℚ) ≠ 0 := ne_of_gt ht
  field_simp
  ring

/-- Closed instance of the C1 theorem: target 100 per second, observed
rate 200 per second (k = 2), prior sampling rate 1.0; the recomputed
sampling rate is 1.0 * 0.95 / 2 = 0.475. -/
theorem throttle_sampling_scaling_witness :
    sampleState.streaming = true
    ∧ 0 < ((sampleState.targetRateLimit : ℚ))
    ∧ (200 : ℚ) = 2 * (sampleState.targetRateLimit : ℚ)
    ∧ (1 : ℚ) < 2
    ∧ (throttle false sampleState 200 true 200 true true true).1.samplingRate
        = sampleState.samplingRate * overshootFactor / 2 :=
  ⟨rfl, by norm_num [sampleState], by norm_num [sampleState], by norm_num,
   (throttle_sampling_scaling sampleState 200 200 2 true true rfl
      (by norm_num [sampleState]) (by norm_num [sampleState])
      (by norm_num)).2.1⟩

lemma throttle_pre315_open (s : ConsumerState) (n : ℕ) (r : ℚ)
    (a b c : Bool) (hstream : s.streaming = true) :
    throttle true s n true r a b c
      = ({ s with throttles := s.throttles + 1 }, true) := by
  simp [throttle, hstream]

/-- C3: on a breaker trip while streaming on a pre-3.15 kernel, throttle
only increments the throttles counter (the connection slot, sampling state
and every other field are untouched, so the socket is neither closed nor
reinitialized) and returns no error; consequently the receive loop
iteration ends in cont, i.e. the loop keeps running. -/
theorem throttle_pre315_fallback (s : ConsumerState) (inp : IterInput)
    (n : ℕ) (r : ℚ) (a b c : Bool)
    (hstream : s.streaming = true)
    (hopen : inp.breakerOpen = true)
    (hnoteof : ∀ e, inp.rerr = some e → socketError e ≠ SockErrClass.eof) :
    throttle true s n true r a b c
      = ({ s with throttles := s.throttles + 1 }, true)
    ∧ ∃ s2 oev, receiveStep true s inp = StepOut.cont s2 oev := by
  refine ⟨throttle_pre315_open s n r a b c hstream, ?_⟩
  have tail : ∀ s0 : ConsumerState, s0.streaming = true →
      ∃ s2 oev, receiveTail true s0 inp = StepOut.cont s2 oev := by
    intro s0 hs0
    have hth : throttle true s0 inp.msgs.length inp.breakerOpen
        inp.breakerRate inp.sockOk inp.bpfOk inp.joinOk
        = ({ s0 with throttles := s0.throttles + 1 }, true) := by
      rw [hopen]
      exact throttle_pre315_open s0 inp.msgs.length inp.breakerRate
        inp.sockOk inp.bpfOk inp.joinOk hs0
    rw [receiveTail_eq true s0 _ inp hth]
    cases hb : inp.msgs.any (fun m => !m.checkOk) with
    | true =>
      refine ⟨{ s0 with throttles := s0.throttles + 1,
                        msgErrors := s0.msgErrors + 1 }, none, ?_⟩
      rw [if_pos rfl]
    | false =>
      refine ⟨{ s0 with throttles := s0.throttles + 1 },
        some (strippedEvent inp), ?_⟩
      rw [if_neg (by simp), if_neg (by simp [hs0])]
  cases hre : inp.rerr with
  | none =>
    rw [receiveStep_none true s inp hre]
    exact tail s hstream
  | some e =>
    cases hcl : socketError e with
    | eof => exact absurd hcl (hnoteof e hre)
    | enobuf =>
      rw [receiveStep_enobuf true s inp e hre hcl]
      exact tail _ hstream
    | otherErr =>
      rw [receiveStep_other true s inp e hre hcl]
      exact tail _ hstream

/-- Iteration input used by the C3 witness: no receive error, breaker open
at an observed rate of 200 messages per second. -/
def pre315Input : IterInput :=
  { msgs := [], netnsId := 0, rerr := none, breakerOpen := true,
    breakerRate := 200, sockOk := true, bpfOk := true, joinOk := true }

/-- Closed instance of the C3 theorem: streaming state with an open
breaker on a pre-3.15 kernel; throttle bumps only the throttles counter
and the iteration continues. -/
theorem throttle_pre315_fallback_witness :
    sampleState.streaming = true
    ∧ pre315Input.breakerOpen = true
    ∧ throttle true sampleState 200 true 200 true true true
        = ({ sampleState with throttles := sampleState.throttles + 1 }, true)
    ∧ ∃ s2 oev, receiveStep true sampleState pre315Input
        = StepOut.cont s2 oev :=
  ⟨rfl, rfl,
   (throttle_pre315_fallback sampleState pre315Input 200 200 true true true
      rfl rfl (fun e h => by simp [pre315Input] at h)).1,
   (throttle_pre315_fallback sampleState pre315Input 200 200 true true true
      rfl rfl (fun e h => by simp [pre315Input] at h)).2⟩

lemma receiveStep_emit (pre315 : Bool) (s : ConsumerState) (inp : IterInput)
    (hnoteof : ∀ e, inp.rerr = some e → socketError e ≠ SockErrClass.eof)
    (hclosed : inp.breakerOpen = false)
    (hvalid : inp.msgs.any (fun m => !m.checkOk) = false) :
    ∃ s2 : ConsumerState, s2.streaming = s.streaming ∧
      receiveStep pre315 s inp
        = (if lastIsDone inp.msgs && !s.streaming
           then StepOut.ret s2 (some (strippedEvent inp))
           else StepOut.cont s2 (some (strippedEvent inp))) := by
  have hth : ∀ s0 : ConsumerState,
      throttle pre315 s0 inp.msgs.length inp.breakerOpen inp.breakerRate
        inp.sockOk inp.bpfOk inp.joinOk = (s0, true) := by
    intro s0
    rw [hclosed]
    exact throttle_closed pre315 s0 inp.msgs.length inp.breakerRate
      inp.sockOk inp.bpfOk inp.joinOk
  cases hre : inp.rerr with
  | none =>
    refine ⟨s, rfl, ?_⟩
    rw [receiveStep_none pre315 s inp hre, receiveTail_eq pre315 s s inp
      (hth s), if_neg (by simp [hvalid])]
  | some e =>
    cases hcl : socketError e with
    | eof => exact absurd hcl (hnoteof e hre)
    | enobuf =>
      refine ⟨{ s with enobufs := s.enobufs + 1 }, rfl, ?_⟩
      rw [receiveStep_enobuf pre315 s inp e hre hcl,
        receiveTail_eq pre315 _ _ inp (hth _), if_neg (by simp [hvalid])]
    | otherErr =>
      refine ⟨{ s with readErrors := s.readErrors + 1 }, rfl, ?_⟩
      rw [receiveStep_other pre315 s inp e hre hcl,
        receiveTail_eq pre315 _ _ inp (hth _), if_neg (by simp [hvalid])]

/-- C2: for a batch whose last message has the Done header type, the
receive loop strips that sentinel before emitting the Event, continues
when streaming is true, and returns (so that the deferred close shuts the
output queue) exactly when streaming is false. -/
theorem receive_done_sentinel (pre315 : Bool) (s : ConsumerState)
    (inp : IterInput)
    (hlast : lastIsDone inp.msgs = true)
    (hvalid : inp.msgs.any (fun m => !m.checkOk) = false)
    (hclosed : inp.breakerOpen = false)
    (hnoteof : ∀ e, inp.rerr = some e → socketError e ≠ SockErrClass.eof) :
    ∃ s2 : ConsumerState,
      (s.streaming = true → receiveStep pre315 s inp
        = StepOut.cont s2
            (some { msgs := inp.msgs.dropLast, netnsId := inp.netnsId }))
      ∧ (s.streaming = false → receiveStep pre315 s inp
        = StepOut.ret s2
            (some { msgs := inp.msgs.dropLast, netnsId := inp.netnsId })) := by
  obtain ⟨s2, hs2, hstep⟩ := receiveStep_emit pre315 s inp hnoteof hclosed
    hvalid
  refine ⟨s2, ?_, ?_⟩
  · intro hss
    rw [hstep, if_neg (by simp [hss])]
    simp [strippedEvent, hlast]
  · intro hss
    rw [hstep, if_pos (by simp [hlast, hss])]
    simp [strippedEvent, hlast]

/-- Dump-phase consumer state (streaming = false) for the C2 witness. -/
def dumpState : ConsumerState :=
  { targetRateLimit := 100, samplingRate := 1, samplingPct := 100,
    enobufs := 0, throttles := 0, readErrors := 0, msgErrors := 0,
    streaming := false, conn := some 1, socketGen := 1 }

/-- Batch input ending in a Done sentinel for the C2 witness. -/
def doneInput : IterInput :=
  { msgs := [{ htype := 0, checkOk := true },
             { htype := nlDone, checkOk := true }],
    netnsId := 0, rerr := none, breakerOpen := false, breakerRate := 0,
    sockOk := true, bpfOk := true, joinOk := true }

/-- Closed instance of the C2 theorem in the dump phase: a two-message
batch ending in Done yields a Done-stripped Event and the loop returns. -/
theorem receive_done_sentinel_witness :
    lastIsDone doneInput.msgs = true
    ∧ doneInput.msgs.any (fun m => !m.checkOk) = false
    ∧ doneInput.breakerOpen = false
    ∧ ∃ s2 : ConsumerState,
        (dumpState.streaming = true → receiveStep false dumpState doneInput
          = StepOut.cont s2
              (some ⟨doneInput.msgs.dropLast, doneInput.netnsId⟩))
        ∧ (dumpState.streaming = false → receiveStep false dumpState doneInput
          = StepOut.ret s2
              (some ⟨doneInput.msgs.dropLast, doneInput.netnsId⟩)) :=
  ⟨by decide, by decide, rfl,
   receive_done_sentinel false dumpState doneInput (by decide) (by decide)
     rfl (fun e h => by simp [doneInput] at h)⟩

/-- C4: classification of ReceiveInto errors by the receive loop, in source
order. An error containing "closed file" makes the iteration return at
once with nothing emitted; otherwise one containing "no buffer space"
increments enobufs, and any other error increments read_errors, and in
both of the latter cases (breaker closed, all messages valid, streaming)
the loop continues and the messages returned alongside the error are still
delivered as an Event. -/
theorem receive_error_classes (pre315 : Bool) (s : ConsumerState)
    (inp : IterInput) (e : List Char)
    (herr : inp.rerr = some e) :
    (containsSub closedFileStr e = true →
      receiveStep pre315 s inp = StepOut.ret s none)
    ∧ (containsSub closedFileStr e = false →
       containsSub noBufStr e = true →
       s.streaming = true → inp.breakerOpen = false →
       inp.msgs.any (fun m => !m.checkOk) = false →
       receiveStep pre315 s inp
         = StepOut.cont { s with enobufs := s.enobufs + 1 }
             (some (strippedEvent inp)))
    ∧ (containsSub closedFileStr e = false →
       containsSub noBufStr e = false →
       s.streaming = true → inp.breakerOpen = false →
       inp.msgs.any (fun m => !m.checkOk) = false →
       receiveStep pre315 s inp
         = StepOut.cont { s with readErrors := s.readErrors + 1 }
             (some (strippedEvent inp))) := by
  refine ⟨?_, ?_, ?_⟩
  · intro hc
    exact receiveStep_eof pre315 s inp e herr (by simp only [socketError, hc]; rfl)
  · intro hc hb hss hclosed hvalid
    have hth : throttle pre315 { s with enobufs := s.enobufs + 1 }
        inp.msgs.length inp.breakerOpen inp.breakerRate
        inp.sockOk inp.bpfOk inp.joinOk
        = ({ s with enobufs := s.enobufs + 1 }, true) := by
      rw [hclosed]
      exact throttle_closed pre315 _ inp.msgs.length inp.breakerRate
        inp.sockOk inp.bpfOk inp.joinOk
    rw [receiveStep_enobuf pre315 s inp e herr
        (by simp only [socketError, hc, hb]; rfl),
      receiveTail_eq pre315 _ _ inp hth, if_neg (by simp [hvalid]),
      if_neg (by simp [hss])]
  · intro hc hb hss hclosed hvalid
    have hth : throttle pre315 { s with readErrors := s.readErrors + 1 }
        inp.msgs.length inp.breakerOpen inp.breakerRate
        inp.sockOk inp.bpfOk inp.joinOk
        = ({ s with readErrors := s.readErrors + 1 }, true) := by
      rw [hclosed]
      exact throttle_closed pre315 _ inp.msgs.length inp.breakerRate
        inp.sockOk inp.bpfOk inp.joinOk
    rw [receiveStep_other pre315 s inp e herr
        (by simp only [socketError, hc, hb]; rfl),
      receiveTail_eq pre315 _ _ inp hth, if_neg (by simp [hvalid]),
      if_neg (by simp [hss])]

/-- ENOBUF-style iteration input with no messages, used by the C4 and C9
witnesses. -/
def enobufInput : IterInput :=
  { msgs := [], netnsId := 0, rerr := some noBufStr,
    breakerOpen := false, breakerRate := 0, sockOk := true, bpfOk := true,
    joinOk := true }

/-- Closed instance of the C4 theorem: an error reading "no buffer space"
increments enobufs and the loop continues, emitting an empty Event. -/
theorem receive_error_classes_witness :
    enobufInput.rerr = some noBufStr
    ∧ containsSub closedFileStr noBufStr = false
    ∧ containsSub noBufStr noBufStr = true
    ∧ receiveStep false sampleState enobufInput
        = StepOut.cont { sampleState with enobufs := sampleState.enobufs + 1 }
            (some (strippedEvent enobufInput)) :=
  ⟨rfl, by decide, by decide,
   (receive_error_classes false sampleState enobufInput noBufStr rfl).2.1
     (by decide) (by decide) rfl rfl (by decide)⟩

/-- C5: a received batch containing a message that fails checkMessage
validation increments msg_errors once, emits no Event for that batch, and
the loop continues with the next iteration. -/
theorem receive_invalid_batch (pre315 : Bool) (s : ConsumerState)
    (inp : IterInput)
    (hnoteof : ∀ e, inp.rerr = some e → socketError e ≠ SockErrClass.eof)
    (hclosed : inp.breakerOpen = false)
    (hbad : inp.msgs.any (fun m => !m.checkOk) = true) :
    ∃ s2, receiveStep pre315 s inp = StepOut.cont s2 none
      ∧ s2.msgErrors = s.msgErrors + 1 := by
  have hth : ∀ s0 : ConsumerState,
      throttle pre315 s0 inp.msgs.length inp.breakerOpen inp.breakerRate
        inp.sockOk inp.bpfOk inp.joinOk = (s0, true) := by
    intro s0
    rw [hclosed]
    exact throttle_closed pre315 s0 inp.msgs.length inp.breakerRate
      inp.sockOk inp.bpfOk inp.joinOk
  cases hre : inp.rerr with
  | none =>
    refine ⟨{ s with msgErrors := s.msgErrors + 1 }, ?_, rfl⟩
    rw [receiveStep_none pre315 s inp hre, receiveTail_eq pre315 s s inp
      (hth s), if_pos hbad]
  | some e =>
    cases hcl : socketError e with
    | eof => exact absurd hcl (hnoteof e hre)
    | enobuf =>
      refine ⟨{ s with enobufs := s.enobufs + 1,
                       msgErrors := s.msgErrors + 1 }, ?_, rfl⟩
      rw [receiveStep_enobuf pre315 s inp e hre hcl,
        receiveTail_eq pre315 _ _ inp (hth _), if_pos hbad]
    | otherErr =>
      refine ⟨{ s with readErrors := s.readErrors + 1,
                       msgErrors := s.msgErrors + 1 }, ?_, rfl⟩
      rw [receiveStep_other pre315 s inp e hre hcl,
        receiveTail_eq pre315 _ _ inp (hth _), if_pos hbad]

/-- Batch with one message failing validation, for the C5 witness. -/
def badBatchInput : IterInput :=
  { msgs := [{ htype := 0, checkOk := true },
             { htype := nlError, checkOk := false }],
    netnsId := 0, rerr := none, breakerOpen := false, breakerRate := 0,
    sockOk := true, bpfOk := true, joinOk := true }

/-- Closed instance of the C5 theorem: a two-message batch with one
invalid message is dropped whole, bumping msg_errors by one. -/
theorem receive_invalid_batch_witness :
    (badBatchInput.msgs.any fun m => !m.checkOk) = true
    ∧ badBatchInput.breakerOpen = false
    ∧ ∃ s2, receiveStep false sampleState badBatchInput
        = StepOut.cont s2 none
      ∧ s2.msgErrors = sampleState.msgErrors + 1 :=
  ⟨by decide, rfl,
   receive_invalid_batch false sampleState badBatchInput
     (fun e h => by simp [badBatchInput] at h) rfl (by decide)⟩

/-- C9: an iteration whose error is not EOF, whose throttle call succeeds
(breaker closed here) and whose messages all pass validation emits exactly
one Event — carrying the Done-stripped batch and the namespace id — and
the iteration continues whenever it is not a dump-phase Done batch; in
particular an iteration with an empty batch (e.g. an ENOBUF error with no
messages) still emits one Event with zero messages. -/
theorem receive_emits_single_event (pre315 : Bool) (s : ConsumerState)
    (inp : IterInput)
    (hnoteof : ∀ e, inp.rerr = some e → socketError e ≠ SockErrClass.eof)
    (hclosed : inp.breakerOpen = false)
    (hvalid : inp.msgs.any (fun m => !m.checkOk) = false) :
    ∃ s2 ev, (receiveStep pre315 s inp = StepOut.cont s2 (some ev)
        ∨ receiveStep pre315 s inp = StepOut.ret s2 (some ev))
      ∧ ev.msgs = (if lastIsDone inp.msgs then inp.msgs.dropLast
                   else inp.msgs)
      ∧ ev.netnsId = inp.netnsId
      ∧ ((lastIsDone inp.msgs && !s.streaming) = false →
          receiveStep pre315 s inp = StepOut.cont s2 (some ev))
      ∧ (inp.msgs = [] → ev.msgs = []) := by
  obtain ⟨s2, hs2, hstep⟩ := receiveStep_emit pre315 s inp hnoteof hclosed
    hvalid
  refine ⟨s2, strippedEvent inp, ?_, rfl, rfl, ?_, ?_⟩
  · cases hc : (lastIsDone inp.msgs && !s.streaming) with
    | true =>
      right
      rw [hstep, if_pos hc]
    | false =>
      left
      rw [hstep, if_neg (by simp [hc])]
  · intro hc
    rw [hstep, if_neg (by simp [hc])]
  · intro hm
    simp [strippedEvent, hm, lastIsDone]

/-- Closed instance of the C9 theorem: an ENOBUF iteration with an empty
batch emits exactly one Event carrying zero messages and continues. -/
theorem receive_emits_single_event_witness :
    enobufInput.breakerOpen = false
    ∧ (enobufInput.msgs.any fun m => !m.checkOk) = false
    ∧ ∃ s2 ev, (receiveStep false sampleState enobufInput
          = StepOut.cont s2 (some ev)
        ∨ receiveStep false sampleState enobufInput
          = StepOut.ret s2 (some ev))
      ∧ ev.msgs = (if lastIsDone enobufInput.msgs
                   then enobufInput.msgs.dropLast else enobufInput.msgs)
      ∧ ev.netnsId = enobufInput.netnsId
      ∧ ((lastIsDone enobufInput.msgs && !sampleState.streaming) = false →
          receiveStep false sampleState enobufInput
            = StepOut.cont s2 (some ev))
      ∧ (enobufInput.msgs = [] → ev.msgs = []) :=
  ⟨rfl, by decide,
   receive_emits_single_event false sampleState enobufInput
     (fun e h => by simp [enobufInput] at h; subst h; decide) rfl
     (by decide)⟩

lemma i64trunc_scenario : i64trunc ((19/40 : ℚ) * 100) = 47 := by
  rw [i64trunc, if_pos (by norm_num),
    show ((19/40 : ℚ) * 100) = 95/2 by norm_num]
  rw [Int.floor_eq_iff]
  norm_num

/-- C6 counterexample: at the trip-scenario sampling rate 19/40 = 0.475,
initNetlinkSocket stores sampling_pct = 47 (int64 truncation of 47.5),
while round(0.475 * 100) = 48, refuting sampling_pct = round(s * 100). -/
theorem init_sampling_pct_round_refuted :
    (initNetlinkSocket sampleState (19/40) true true).1.samplingPct = 47
    ∧ round (((19 : ℚ)/40) * 100) = 48
    ∧ (initNetlinkSocket sampleState (19/40) true true).1.samplingPct
        ≠ round (((19 : ℚ)/40) * 100) := by
  have h1 : (initNetlinkSocket sampleState (19/40) true true).1.samplingPct
      = 47 := by
    have hred : (initNetlinkSocket sampleState (19/40) true true).1.samplingPct
        = i64trunc ((19/40 : ℚ) * 100) := by
      simp only [initNetlinkSocket, Bool.not_true, Bool.false_eq_true,
        if_false]
      rw [if_neg (by norm_num : ¬ (1 : ℚ) ≤ 19/40)]
      rfl
    rw [hred]
    exact i64trunc_scenario
  have h2 : round (((19 : ℚ)/40) * 100) = 48 := by
    rw [round_eq, show ((19/40 : ℚ) * 100) = 95/2 by norm_num]
    rw [Int.floor_eq_iff]
    norm_num
  refine ⟨h1, h2, ?_⟩
  rw [h1, h2]
  decide

lemma throttle_open_pct (s : ConsumerState) (n : ℕ) (r : ℚ)
    (joinOk : Bool) (hstream : s.streaming = true)
    (hlt : ((s.targetRateLimit : ℚ) / r) * s.samplingRate * overshootFactor
        < 1) :
    (throttle false s n true r true true joinOk).1.samplingPct
      = i64trunc (((s.targetRateLimit : ℚ) / r) * s.samplingRate
          * overshootFactor * 100) := by
  simp only [throttle, initNetlinkSocket, hstream, Bool.not_true,
    Bool.false_eq_true, if_false]
  rw [if_neg (not_le.mpr hlt)]
  rfl

/-- C6 (amended): initNetlinkSocket stores sampling_pct as the int64
truncation toward zero of s * 100 (not its rounding), and succeeds, when
the BPF attachment succeeds or no filter is needed (s >= 1); when s < 1
and the attachment fails it stores sampling_pct = 0 and returns the error;
in the trip scenario (target 100, observed 200, prior rate 1.0) the stored
value is 47 = trunc(47.5). -/
theorem init_sampling_pct_trunc (s : ConsumerState) (q : ℚ) (bpfOk : Bool)
    (h : 1 ≤ q ∨ bpfOk = true) :
    (initNetlinkSocket s q true bpfOk).1.samplingPct = i64trunc (q * 100)
    ∧ (initNetlinkSocket s q true bpfOk).2 = true
    ∧ (∀ q2 : ℚ, q2 < 1 →
        (initNetlinkSocket s q2 true false).1.samplingPct = 0
        ∧ (initNetlinkSocket s q2 true false).2 = false)
    ∧ (throttle false sampleState 200 true 200 true true true).1.samplingPct
        = 47 := by
  have hmain : (initNetlinkSocket s q true bpfOk).1.samplingPct
      = i64trunc (q * 100) ∧ (initNetlinkSocket s q true bpfOk).2 = true := by
    rcases h with h | h
    · constructor <;>
        (simp only [initNetlinkSocket, Bool.not_true, Bool.false_eq_true,
          if_false]
         rw [if_pos h])
    · subst h
      constructor <;>
        (simp only [initNetlinkSocket, Bool.not_true, Bool.false_eq_true,
          if_false]
         split_ifs <;> rfl)
  refine ⟨hmain.1, hmain.2, ?_, ?_⟩
  · intro q2 hq2
    constructor <;>
      (simp only [initNetlinkSocket, Bool.not_true, Bool.false_eq_true,
        if_false]
       rw [if_neg (not_le.mpr hq2)])
  · rw [throttle_open_pct sampleState 200 200 true rfl
      (by norm_num [sampleState, overshootFactor])]
    rw [show ((sampleState.targetRateLimit : ℚ) / 200 * sampleState.samplingRate
        * overshootFactor * 100) = (19/40 : ℚ) * 100
      by norm_num [sampleState, overshootFactor]]
    exact i64trunc_scenario

/-- Closed instance of the C6 amended theorem at s = 19/40: the stored
percentage is the truncation of 47.5, namely 47. -/
theorem init_sampling_pct_trunc_witness :
    ((1 : ℚ) ≤ 19/40 ∨ true = true)
    ∧ (initNetlinkSocket sampleState (19/40) true true).1.samplingPct
        = i64trunc ((19/40 : ℚ) * 100)
    ∧ i64trunc ((19/40 : ℚ) * 100) = 47 :=
  ⟨Or.inr rfl,
   (init_sampling_pct_trunc sampleState (19/40) true (Or.inr rfl)).1,
   i64trunc_scenario⟩

lemma scanNSID_iff (attrs : List (Nat × Nat)) :
    scanNSID attrs = true ↔
      ∃ v, attrs.find? (fun a => a.1 == netnsaNSID) = some (netnsaNSID, v)
        ∧ 0 ≤ int32OfUint32 v := by
  induction attrs with
  | nil => simp [scanNSID]
  | cons a rest ih =>
    obtain ⟨t, v⟩ := a
    by_cases ht : t = netnsaNSID
    · subst ht
      simp [scanNSID, List.find?]
    · have hbeq : (t == netnsaNSID) = false := by simp [ht]
      simp [scanNSID, ht, hbeq, List.find?, ih]

/-- C7: a peer-namespace query whose reply arrives returns false when the
reply's first message has the netlink Error header type, and otherwise
(when the attribute decoder opens) returns true exactly when the scan of
the reply's attributes finds a NETNSA_NSID attribute whose value, read as
a signed 32-bit integer, is non-negative. -/
theorem isPeerNS_result (seq : ℕ) (inp : PeerInput) (m : ReplyMsg)
    (rest : List ReplyMsg)
    (henc : inp.encodeOk = true) (hsend : inp.sendOk = true)
    (hrecv : inp.recv = some (m :: rest)) :
    (m.htype = nlError → (isPeerNS seq inp).1 = some false)
    ∧ (m.htype ≠ nlError → m.decodeOk = true →
        ((isPeerNS seq inp).1 = some true ↔
          ∃ v, m.attrs.find? (fun a => a.1 == netnsaNSID)
              = some (netnsaNSID, v) ∧ 0 ≤ int32OfUint32 v)) := by
  constructor
  · intro he
    simp [isPeerNS, henc, hsend, hrecv, he]
  · intro he hd
    simp [isPeerNS, henc, hsend, hrecv, he, hd, scanNSID_iff]

/-- Non-error reply message carrying attribute NETNSA_NSID = 5, used by
the C7 and C8 witnesses and the C8 counterexample. -/
def peerMsgOk : ReplyMsg :=
  { htype := 0, attrs := [(netnsaNSID, 5)], decodeOk := true }

/-- Successful peer-query input used by the C7 and C8 witnesses and the
C8 counterexample. -/
def peerInputOk : PeerInput :=
  { encodeOk := true, sendOk := true, recv := some [peerMsgOk] }

/-- Closed instance of the C7 theorem on a reply whose single NETNSA_NSID
attribute carries the non-negative value 5. -/
theorem isPeerNS_result_witness :
    peerInputOk.encodeOk = true ∧ peerInputOk.sendOk = true
    ∧ peerInputOk.recv = some (peerMsgOk :: [])
    ∧ (peerMsgOk.htype ≠ nlError → peerMsgOk.decodeOk = true →
        ((isPeerNS 1 peerInputOk).1 = some true ↔
          ∃ v, peerMsgOk.attrs.find? (fun a => a.1 == netnsaNSID)
              = some (netnsaNSID, v) ∧ 0 ≤ int32OfUint32 v)) :=
  ⟨rfl, rfl, rfl, (isPeerNS_result 1 peerInputOk peerMsgOk [] rfl rfl rfl).2⟩

/-- C8 counterexample: at sequence number 2^32 - 1 a successful peer query
wraps the uint32 sequence number to 0, so the sequence number does not
strictly increase across that query. -/
theorem isPeerNS_seq_wrap :
    (isPeerNS 4294967295 peerInputOk).1 = some true
    ∧ (isPeerNS 4294967295 peerInputOk).2 = 0
    ∧ ¬ (4294967295 < (isPeerNS 4294967295 peerInputOk).2) := by
  refine ⟨?_, ?_, ?_⟩ <;> decide

/-- C8 (amended): the consumer's netlink sequence number is advanced by
exactly one modulo 2^32 when a non-error reply is received — hence it
strictly increases across successful queries whenever no uint32 wraparound
occurs — and it is left unchanged when attribute encoding, send or receive
fails or when the reply's first message is an error frame. -/
theorem isPeerNS_seq_advance (seq : ℕ) (inp : PeerInput) (m : ReplyMsg)
    (rest : List ReplyMsg)
    (henc : inp.encodeOk = true) (hsend : inp.sendOk = true)
    (hrecv : inp.recv = some (m :: rest)) :
    (m.htype ≠ nlError → (isPeerNS seq inp).2 = (seq + 1) % 2 ^ 32)
    ∧ (m.htype ≠ nlError → seq + 1 < 2 ^ 32 → seq < (isPeerNS seq inp).2)
    ∧ (m.htype = nlError → (isPeerNS seq inp).2 = seq)
    ∧ (∀ inp2 : PeerInput,
        inp2.encodeOk = false ∨ inp2.sendOk = false ∨ inp2.recv = none →
        (isPeerNS seq inp2).2 = seq) := by
  have hadv : m.htype ≠ nlError →
      (isPeerNS seq inp).2 = (seq + 1) % 2 ^ 32 := by
    intro he
    cases hd : m.decodeOk <;> simp [isPeerNS, henc, hsend, hrecv, he, hd]
  refine ⟨hadv, ?_, ?_, ?_⟩
  · intro he hlt
    rw [hadv he, Nat.mod_eq_of_lt hlt]
    exact Nat.lt_succ_self seq
  · intro he
    simp [isPeerNS, henc, hsend, hrecv, he]
  · intro inp2 h2
    rcases h2 with h2 | h2 | h2
    · simp [isPeerNS, h2]
    · cases he2 : inp2.encodeOk
      · simp [isPeerNS, he2]
      · simp [isPeerNS, he2, h2]
    · cases he2 : inp2.encodeOk
      · simp [isPeerNS, he2]
      · cases hs2 : inp2.sendOk
        · simp [isPeerNS, he2, hs2]
        · simp [isPeerNS, he2, hs2, h2]

/-- Closed instance of the C8 amended theorem: a successful query at
sequence number 7 advances the sequence number, strictly increasing it. -/
theorem isPeerNS_seq_advance_witness :
    peerInputOk.encodeOk = true ∧ peerInputOk.sendOk = true
    ∧ peerInputOk.recv = some (peerMsgOk :: [])
    ∧ peerMsgOk.htype ≠ nlError
    ∧ (7 : ℕ) + 1 < 2 ^ 32
    ∧ 7 < (isPeerNS 7 peerInputOk).2 :=
  ⟨rfl, rfl, rfl, by decide, by decide,
   (isPeerNS_seq_advance 7 peerInputOk peerMsgOk [] rfl rfl rfl).2.1
     (by decide) (by decide)⟩

/-- C10: the unguarded msgs[0] access in isPeerNS is out of bounds exactly
when a Receive call that reported no error returned an empty message
slice; on every other input the access is in bounds and a Bool results.
Thus the access is safe only under the precondition that a successful
Receive returns at least one message. -/
theorem isPeerNS_first_access (seq : ℕ) (inp : PeerInput) :
    (isPeerNS seq inp).1 = none ↔
      (inp.encodeOk = true ∧ inp.sendOk = true ∧ inp.recv = some []) := by
  obtain ⟨e1, e2, r⟩ := inp
  cases e1 with
  | false => simp [isPeerNS]
  | true =>
    cases e2 with
    | false => simp [isPeerNS]
    | true =>
      cases r with
      | none => simp [isPeerNS]
      | some l =>
        cases l with
        | nil => simp [isPeerNS]
        | cons m rest =>
          by_cases hm : m.htype = nlError
          · simp [isPeerNS, hm]
          · cases hd : m.decodeOk <;> simp [isPeerNS, hm, hd]
